import Mathlib

/-!
Shallow embedding of the PawPal+ pet-care scheduling system
(`pawpal_system.py`): domain records Owner, Pet, Task, SchedulePlan and
the stateless Scheduler with its greedy fit algorithm, together with
theorems checking the claims of the specification against this embedding.

Python integers are unbounded, so all numeric fields are `Int`.
Python lists are `List`, mutation is modelled by returning the updated
record, and the `ValueError` raised by `Pet.add_task` is modelled with
`Except String`.
-/

namespace PawPal

/-- Represents a single pet care activity (dataclass `Task`): id, name,
category, duration_minutes, priority string, owning pet id. The source
dataclass has exactly these six fields. -/
structure Task where
  id : Int
  name : String
  category : String
  duration_minutes : Int
  priority : String
  pet_id : Int
deriving DecidableEq, Repr

/-- Python `str.lower()`, as used on priority strings: per-character case
folding, written over the underlying character list so that it evaluates
inside the kernel. -/
def strLower (s : String) : String := ⟨s.data.map Char.toLower⟩

/-- The module-level dict `PRIORITY_VALUES = {"high": 3, "medium": 2, "low": 1}`,
embedded as its lookup function (`dict.get` returns `None` on a missing key). -/
def PRIORITY_VALUES (s : String) : Option Int :=
  if s = "high" then some 3
  else if s = "medium" then some 2
  else if s = "low" then some 1
  else none

/-- `Task.get_priority_value`: `PRIORITY_VALUES.get(self.priority.lower(), 1)`. -/
def Task.get_priority_value (t : Task) : Int :=
  (PRIORITY_VALUES (strLower t.priority)).getD 1

/-- Represents a pet (dataclass `Pet`). -/
structure Pet where
  id : Int
  name : String
  species : String
  age : Int
  tasks : List Task := []
deriving DecidableEq, Repr

/-- `Pet.add_task`: raises `ValueError` when `task.pet_id != self.id`
(modelled as `Except.error`), otherwise appends the task. -/
def Pet.add_task (p : Pet) (t : Task) : Except String Pet :=
  if t.pet_id ≠ p.id then
    Except.error ("Task pet_id (" ++ toString t.pet_id ++
      ") does not match Pet id (" ++ toString p.id ++ ")")
  else
    Except.ok { p with tasks := p.tasks ++ [t] }

/-- The pet as it stands after calling `add_task` (on a raised
`ValueError` the pet object is left untouched). -/
def Pet.add_task_result (p : Pet) (t : Task) : Pet :=
  match p.add_task t with
  | Except.ok p2 => p2
  | Except.error _ => p

/-- `Pet.remove_task`: `self.tasks = [t for t in self.tasks if t.id != task_id]`. -/
def Pet.remove_task (p : Pet) (task_id : Int) : Pet :=
  { p with tasks := p.tasks.filter (fun t => t.id != task_id) }

/-- `Pet.get_task_by_id`: first task with the id, `None` if absent. -/
def Pet.get_task_by_id (p : Pet) (task_id : Int) : Option Task :=
  p.tasks.find? (fun t => t.id == task_id)

/-- `Pet.get_tasks`. -/
def Pet.get_tasks (p : Pet) : List Task :=
  p.tasks

/-- `Pet.get_total_task_time`: `sum(task.duration_minutes for task in self.tasks)`. -/
def Pet.get_total_task_time (p : Pet) : Int :=
  p.tasks.foldl (fun acc t => acc + t.duration_minutes) 0

/-- Represents a pet owner (dataclass `Owner`). -/
structure Owner where
  id : Int
  name : String
  available_time_minutes : Int
  pets : List Pet := []
deriving DecidableEq, Repr

/-- `Owner.add_pet`: `self.pets.append(pet)`. -/
def Owner.add_pet (o : Owner) (p : Pet) : Owner :=
  { o with pets := o.pets ++ [p] }

/-- `Owner.remove_pet`: `self.pets = [p for p in self.pets if p.id != pet_id]`. -/
def Owner.remove_pet (o : Owner) (pet_id : Int) : Owner :=
  { o with pets := o.pets.filter (fun p => p.id != pet_id) }

/-- `Owner.get_pet_by_id`: first pet with the id, `None` if absent. -/
def Owner.get_pet_by_id (o : Owner) (pet_id : Int) : Option Pet :=
  o.pets.find? (fun p => p.id == pet_id)

/-- `Owner.get_all_tasks`: `all_tasks = []` then `all_tasks.extend(pet.tasks)`
for each pet in order. -/
def Owner.get_all_tasks (o : Owner) : List Task :=
  o.pets.foldl (fun all_tasks pet => all_tasks ++ pet.tasks) []

/-- `Owner.get_total_task_time`. -/
def Owner.get_total_task_time (o : Owner) : Int :=
  o.get_all_tasks.foldl (fun acc t => acc + t.duration_minutes) 0

/-- Result of scheduling (dataclass `SchedulePlan`). -/
structure SchedulePlan where
  scheduled_tasks : List Task := []
  skipped_tasks : List Task := []
  explanation : String := ""
  time_used : Int := 0
  time_available : Int := 0
deriving DecidableEq, Repr

/-- `SchedulePlan.get_scheduled_count`. -/
def SchedulePlan.get_scheduled_count (plan : SchedulePlan) : Nat :=
  plan.scheduled_tasks.length

/-- `SchedulePlan.get_skipped_count`. -/
def SchedulePlan.get_skipped_count (plan : SchedulePlan) : Nat :=
  plan.skipped_tasks.length

namespace Scheduler

/-- `Scheduler._sort_tasks_by_priority`:
`sorted(tasks, key=lambda task: task.get_priority_value(), reverse=True)`.
The `sorted` builtin of Python is a stable sort, and `reverse=True` inverts the key
comparison while keeping stability, so it is the (unique) stable sort by
descending priority value; `List.mergeSort` with the inverted comparison
is that stable sort. -/
def sort_tasks_by_priority (tasks : List Task) : List Task :=
  tasks.mergeSort (fun a b =>
    decide (b.get_priority_value ≤ a.get_priority_value))

/-- The loop state of `Scheduler._fit_tasks_to_time`, passed explicitly:
the locals `scheduled`, `skipped` and `time_remaining`, updated per task.
Returns the final values of all three. -/
def fitLoop : List Task → List Task → List Task → Int →
    List Task × List Task × Int
  | [], scheduled, skipped, time_remaining =>
      (scheduled, skipped, time_remaining)
  | task :: rest, scheduled, skipped, time_remaining =>
      if task.duration_minutes ≤ time_remaining then
        fitLoop rest (scheduled ++ [task]) skipped
          (time_remaining - task.duration_minutes)
      else
        fitLoop rest scheduled (skipped ++ [task]) time_remaining

/-- `Scheduler._fit_tasks_to_time`: runs the loop from
`scheduled = []`, `skipped = []`, `time_remaining = available_time` and
returns `(scheduled, skipped)`. -/
def fit_tasks_to_time (tasks : List Task) (available_time : Int) :
    List Task × List Task :=
  let r := fitLoop tasks [] [] available_time
  (r.1, r.2.1)

/-- The final value of the local `time_remaining` counter of
`_fit_tasks_to_time` (the third component of the loop state). -/
def final_time_remaining (tasks : List Task) (available_time : Int) : Int :=
  (fitLoop tasks [] [] available_time).2.2

/-- `Scheduler._generate_explanation`: the three-way decision table over
empty/non-empty scheduled and skipped lists. -/
def generate_explanation (scheduled skipped : List Task)
    (time_used time_available : Int) : String :=
  if scheduled.isEmpty && skipped.isEmpty then
    "No tasks to schedule today. Enjoy your free time!"
  else if skipped.isEmpty then
    "All " ++ toString scheduled.length ++ " tasks fit! Used " ++
      toString time_used ++ "/" ++ toString time_available ++
      " minutes. Tasks were prioritized by importance (high > medium > low)."
  else
    "Scheduled " ++ toString scheduled.length ++ " high-priority tasks (" ++
      toString time_used ++ " min). Skipped " ++ toString skipped.length ++
      " lower-priority tasks due to time constraints. " ++
      "Consider rescheduling skipped tasks for tomorrow or reducing task durations."

/-- `Scheduler.generate_plan`: collect, sort, fit, sum scheduled
durations, explain, and build the `SchedulePlan`. -/
def generate_plan (owner : Owner) : SchedulePlan :=
  let all_tasks := owner.get_all_tasks
  let sorted_tasks := sort_tasks_by_priority all_tasks
  let fitResult := fit_tasks_to_time sorted_tasks owner.available_time_minutes
  let scheduled := fitResult.1
  let skipped := fitResult.2
  let time_used := scheduled.foldl (fun acc t => acc + t.duration_minutes) 0
  let explanation :=
    generate_explanation scheduled skipped time_used owner.available_time_minutes
  { scheduled_tasks := scheduled
    skipped_tasks := skipped
    explanation := explanation
    time_used := time_used
    time_available := owner.available_time_minutes }

end Scheduler

/-- `Owner.get_all_tasks`, state-threaded: the method only reads
`self.pets` and each `pet.tasks`, extending the fresh local list
`all_tasks`; it assigns to no attribute, so the owner after the call is
the owner before it. -/
def Owner.get_all_tasksS (o : Owner) : List Task × Owner :=
  let all_tasks := o.pets.foldl (fun acc pet => acc ++ pet.tasks) []
  (all_tasks, o)

namespace Scheduler

/-- `Scheduler.generate_plan`, state-threaded through the owner argument:
each step of the method body either reads owner data
(`owner.get_all_tasks()`, `owner.available_time_minutes`) or builds fresh
local lists (`sorted` returns a new list; the fit loop appends to new
local lists); no step assigns to the owner, a pet or a task. -/
def generate_planS (owner : Owner) : SchedulePlan × Owner :=
  let s1 := owner.get_all_tasksS
  let all_tasks := s1.1
  let owner1 := s1.2
  let sorted_tasks := sort_tasks_by_priority all_tasks
  let fitResult := fit_tasks_to_time sorted_tasks owner1.available_time_minutes
  let scheduled := fitResult.1
  let skipped := fitResult.2
  let time_used := scheduled.foldl (fun acc t => acc + t.duration_minutes) 0
  let explanation :=
    generate_explanation scheduled skipped time_used owner1.available_time_minutes
  ({ scheduled_tasks := scheduled
     skipped_tasks := skipped
     explanation := explanation
     time_used := time_used
     time_available := owner1.available_time_minutes }, owner1)

end Scheduler

/-- Sum of `duration_minutes` over a task list, as the Python
`sum(task.duration_minutes for task in tasks)` (a left fold from 0). -/
def sumDur (ts : List Task) : Int :=
  ts.foldl (fun acc t => acc + t.duration_minutes) 0

/-- Spec scenario 1, first task: high priority, 30 minutes. -/
def taskHigh30 : Task := ⟨1, "Morning walk", "Walk", 30, "high", 1⟩

/-- Spec scenario 1, second task: high priority, 10 minutes. -/
def taskHigh10 : Task := ⟨2, "Feed breakfast", "Feeding", 10, "high", 1⟩

/-- Spec scenario 1, third task: medium priority, 30 minutes. -/
def taskMedium30 : Task := ⟨3, "Evening walk", "Walk", 30, "medium", 1⟩

/-- Pet holding the three scenario-1 tasks in insertion order. -/
def petMochi : Pet := ⟨1, "Mochi", "Dog", 3, [taskHigh30, taskHigh10, taskMedium30]⟩

/-- Owner for scenario 1: budget 40 minutes, one pet. -/
def owner40 : Owner := ⟨1, "Jordan", 40, [petMochi]⟩

/-- Equal-priority task named C (spec scenario 5). -/
def taskEqC : Task := ⟨4, "C", "Walk", 5, "medium", 2⟩

/-- Equal-priority task named A (spec scenario 5). -/
def taskEqA : Task := ⟨5, "A", "Feeding", 5, "medium", 2⟩

/-- Equal-priority task named B (spec scenario 5). -/
def taskEqB : Task := ⟨6, "B", "Grooming", 5, "medium", 2⟩

/-- Pet with id 7 and no tasks, for the add_task claims. -/
def petSolo : Pet := ⟨7, "Luna", "Cat", 5, []⟩

/-- Task whose pet_id 8 does not match the petSolo id 7. -/
def taskForeign : Task := ⟨9, "Brush fur", "Grooming", 15, "low", 8⟩

/-- Task whose pet_id 7 matches the petSolo id. -/
def taskOwn : Task := ⟨10, "Feed dinner", "Feeding", 10, "high", 7⟩

/-- First of two distinct pets sharing id 1. -/
def petDup1 : Pet := ⟨1, "First", "Dog", 2, []⟩

/-- Second of two distinct pets sharing id 1. -/
def petDup2 : Pet := ⟨1, "Second", "Cat", 4, []⟩

/-- Owner whose pet list contains two pets with the same id 1. -/
def ownerDup : Owner := ⟨2, "Dup", 60, [petDup1, petDup2]⟩

/-- Owner with a negative time budget and one 30-minute task. -/
def ownerNeg : Owner := ⟨3, "Neg", -5, [⟨11, "Rex", "Dog", 1, [⟨12, "Walk", "Walk", 30, "high", 11⟩]⟩]⟩

theorem foldl_dur_shift (l : List Task) (a : Int) :
    l.foldl (fun acc t => acc + t.duration_minutes) a =
      a + l.foldl (fun acc t => acc + t.duration_minutes) 0 := by
  induction l generalizing a with
  | nil => simp
  | cons t l ih =>
      rw [List.foldl_cons, List.foldl_cons, ih (a + t.duration_minutes),
        ih (0 + t.duration_minutes)]
      omega

theorem sumDur_foldl (l : List Task) (a : Int) :
    l.foldl (fun acc t => acc + t.duration_minutes) a = a + sumDur l :=
  foldl_dur_shift l a

theorem sumDur_cons (t : Task) (l : List Task) :
    sumDur (t :: l) = t.duration_minutes + sumDur l := by
  simp only [sumDur, List.foldl_cons]
  rw [foldl_dur_shift]
  omega

theorem fitLoop_acc (ts : List Task) (r : Int) (sched skip : List Task) :
    Scheduler.fitLoop ts sched skip r =
      (sched ++ (Scheduler.fitLoop ts [] [] r).1,
       skip ++ (Scheduler.fitLoop ts [] [] r).2.1,
       (Scheduler.fitLoop ts [] [] r).2.2) := by
  induction ts generalizing r sched skip with
  | nil => simp [Scheduler.fitLoop]
  | cons t rest ih =>
      by_cases h : t.duration_minutes ≤ r
      · simp only [Scheduler.fitLoop, if_pos h, List.nil_append]
        rw [ih (r - t.duration_minutes) (sched ++ [t]) skip,
          ih (r - t.duration_minutes) [t] []]
        simp
      · simp only [Scheduler.fitLoop, if_neg h, List.nil_append]
        rw [ih r sched (skip ++ [t]), ih r [] [t]]
        simp

theorem fit_nil (r : Int) : Scheduler.fit_tasks_to_time [] r = ([], []) := rfl

theorem fit_cons (t : Task) (ts : List Task) (r : Int) :
    Scheduler.fit_tasks_to_time (t :: ts) r =
      if t.duration_minutes ≤ r then
        (t :: (Scheduler.fit_tasks_to_time ts (r - t.duration_minutes)).1,
         (Scheduler.fit_tasks_to_time ts (r - t.duration_minutes)).2)
      else
        ((Scheduler.fit_tasks_to_time ts r).1,
         t :: (Scheduler.fit_tasks_to_time ts r).2) := by
  by_cases h : t.duration_minutes ≤ r
  · simp only [Scheduler.fit_tasks_to_time, Scheduler.fitLoop, if_pos h,
      List.nil_append]
    rw [fitLoop_acc ts (r - t.duration_minutes) [t] []]
    simp
  · simp only [Scheduler.fit_tasks_to_time, Scheduler.fitLoop, if_neg h,
      List.nil_append]
    rw [fitLoop_acc ts r [] [t]]
    simp

theorem final_rem_nil (r : Int) : Scheduler.final_time_remaining [] r = r := rfl

theorem final_rem_cons (t : Task) (ts : List Task) (r : Int) :
    Scheduler.final_time_remaining (t :: ts) r =
      if t.duration_minutes ≤ r then
        Scheduler.final_time_remaining ts (r - t.duration_minutes)
      else
        Scheduler.final_time_remaining ts r := by
  by_cases h : t.duration_minutes ≤ r
  · simp only [Scheduler.final_time_remaining, Scheduler.fitLoop, if_pos h,
      List.nil_append]
    rw [fitLoop_acc ts (r - t.duration_minutes) [t] []]
  · simp only [Scheduler.final_time_remaining, Scheduler.fitLoop, if_neg h,
      List.nil_append]
    rw [fitLoop_acc ts r [] [t]]

theorem final_rem_eq (ts : List Task) (r : Int) :
    Scheduler.final_time_remaining ts r =
      r - sumDur (Scheduler.fit_tasks_to_time ts r).1 := by
  induction ts generalizing r with
  | nil => simp [final_rem_nil, fit_nil, sumDur]
  | cons t rest ih =>
      rw [final_rem_cons, fit_cons]
      by_cases h : t.duration_minutes ≤ r
      · simp only [if_pos h, ih (r - t.duration_minutes), sumDur_cons]
        omega
      · simp only [if_neg h, ih r]

theorem final_rem_nonneg (ts : List Task) (r : Int) (h : 0 ≤ r) :
    0 ≤ Scheduler.final_time_remaining ts r := by
  induction ts generalizing r with
  | nil => simpa [final_rem_nil] using h
  | cons t rest ih =>
      rw [final_rem_cons]
      by_cases hd : t.duration_minutes ≤ r
      · rw [if_pos hd]
        exact ih (r - t.duration_minutes) (by omega)
      · rw [if_neg hd]
        exact ih r h

theorem fit_perm (ts : List Task) (r : Int) :
    ((Scheduler.fit_tasks_to_time ts r).1 ++
      (Scheduler.fit_tasks_to_time ts r).2).Perm ts := by
  induction ts generalizing r with
  | nil => simp [fit_nil]
  | cons t rest ih =>
      rw [fit_cons]
      by_cases h : t.duration_minutes ≤ r
      · simpa [if_pos h] using (ih (r - t.duration_minutes)).cons t
      · simp only [if_neg h]
        exact List.perm_middle.trans ((ih r).cons t)

theorem fit_all_skipped (ts : List Task) (r : Int)
    (hd : ∀ t ∈ ts, 1 ≤ t.duration_minutes) (hr : r ≤ 0) :
    Scheduler.fit_tasks_to_time ts r = ([], ts) := by
  induction ts with
  | nil => simp [fit_nil]
  | cons t rest ih =>
      rw [fit_cons]
      have h1 : 1 ≤ t.duration_minutes := hd t (List.mem_cons_self t rest)
      rw [if_neg (by omega)]
      have h2 := ih (fun u hu => hd u (List.mem_cons_of_mem t hu))
      rw [h2]

theorem sort_pairwise (ts : List Task) :
    (Scheduler.sort_tasks_by_priority ts).Pairwise
      (fun a b => b.get_priority_value ≤ a.get_priority_value) := by
  unfold Scheduler.sort_tasks_by_priority
  refine List.Pairwise.imp ?_ (List.sorted_mergeSort ?_ ?_ ts)
  · intro a b hab
    simpa using hab
  · intro a b c hab hbc
    simp only [decide_eq_true_eq] at *
    omega
  · intro a b
    simp only [Bool.or_eq_true, decide_eq_true_eq]
    omega

theorem filter_ne_eraseP {α : Type} (key : α → Int) (x : Int) (l : List α)
    (h : l.Pairwise (fun a b => key a ≠ key b)) :
    l.filter (fun a => key a != x) = l.eraseP (fun a => key a == x) := by
  induction l with
  | nil => rfl
  | cons a l ih =>
      rw [List.pairwise_cons] at h
      by_cases ha : key a = x
      · have hb1 : (key a != x) = false := by simp [ha]
        have hb2 : (key a == x) = true := by simp [ha]
        rw [List.filter_cons, List.eraseP_cons, hb1, hb2]
        simp only [Bool.false_eq_true, if_false, cond_true]
        apply List.filter_eq_self.mpr
        intro u hu
        have hne : key u ≠ x := fun hx => h.1 u hu (by rw [hx, ha])
        simpa [bne_iff_ne] using hne
      · have hb1 : (key a != x) = true := by simpa [bne_iff_ne] using ha
        have hb2 : (key a == x) = false := by simpa using ha
        rw [List.filter_cons, List.eraseP_cons, hb1, hb2]
        simp only [if_true, cond_false]
        rw [ih h.2]

theorem sort_stable (A B : Task) (ts : List Task)
    (h : A.get_priority_value = B.get_priority_value)
    (hsub : [A, B].Sublist ts) :
    [A, B].Sublist (Scheduler.sort_tasks_by_priority ts) := by
  unfold Scheduler.sort_tasks_by_priority
  refine List.pair_sublist_mergeSort ?_ ?_ (by simp [h]) hsub
  · intro a b c hab hbc
    simp only [decide_eq_true_eq] at *
    omega
  · intro a b
    simp only [Bool.or_eq_true, decide_eq_true_eq]
    omega

/-- C1: Greedy fit. For the empty list nothing is scheduled or skipped;
for `task :: rest` at remaining time `r`, the task is scheduled exactly
when `duration_minutes ≤ r`, in which case it heads the scheduled list
and the rest is fitted with `r - duration_minutes`; otherwise it heads
the skipped list and the rest is fitted with `r` unchanged (single pass,
no backtracking). For tasks [high/30, high/10, medium/30] with budget 40
the plan schedules [high/30, high/10], skips [medium/30], time_used 40. -/
theorem C1_greedy_fit :
    (∀ r : Int, Scheduler.fit_tasks_to_time [] r = ([], [])) ∧
    (∀ (t : Task) (ts : List Task) (r : Int),
      Scheduler.fit_tasks_to_time (t :: ts) r =
        if t.duration_minutes ≤ r then
          (t :: (Scheduler.fit_tasks_to_time ts (r - t.duration_minutes)).1,
           (Scheduler.fit_tasks_to_time ts (r - t.duration_minutes)).2)
        else
          ((Scheduler.fit_tasks_to_time ts r).1,
           t :: (Scheduler.fit_tasks_to_time ts r).2)) ∧
    (Scheduler.generate_plan owner40).scheduled_tasks = [taskHigh30, taskHigh10] ∧
    (Scheduler.generate_plan owner40).skipped_tasks = [taskMedium30] ∧
    (Scheduler.generate_plan owner40).time_used = 40 := by
  have hall : owner40.get_all_tasks = [taskHigh30, taskHigh10, taskMedium30] := by
    decide
  have hsort : Scheduler.sort_tasks_by_priority [taskHigh30, taskHigh10, taskMedium30] =
      [taskHigh30, taskHigh10, taskMedium30] := by
    unfold Scheduler.sort_tasks_by_priority
    exact List.mergeSort_of_sorted (by decide)
  refine ⟨fit_nil, fit_cons, ?_, ?_, ?_⟩
  · calc (Scheduler.generate_plan owner40).scheduled_tasks
        = (Scheduler.fit_tasks_to_time
            (Scheduler.sort_tasks_by_priority owner40.get_all_tasks) 40).1 := rfl
      _ = [taskHigh30, taskHigh10] := by rw [hall, hsort]; decide
  · calc (Scheduler.generate_plan owner40).skipped_tasks
        = (Scheduler.fit_tasks_to_time
            (Scheduler.sort_tasks_by_priority owner40.get_all_tasks) 40).2 := rfl
      _ = [taskMedium30] := by rw [hall, hsort]; decide
  · calc (Scheduler.generate_plan owner40).time_used
        = ((Scheduler.fit_tasks_to_time
            (Scheduler.sort_tasks_by_priority owner40.get_all_tasks) 40).1).foldl
              (fun acc t => acc + t.duration_minutes) 0 := rfl
      _ = 40 := by rw [hall, hsort]; decide

/-- C2: For every owner with non-negative budget, time_used equals the
sum of scheduled durations, equals available_time_minutes minus the
final remaining-time counter of the greedy pass, and never exceeds
available_time_minutes. -/
theorem C2_time_used (o : Owner) (h : 0 ≤ o.available_time_minutes) :
    (Scheduler.generate_plan o).time_used =
      sumDur (Scheduler.generate_plan o).scheduled_tasks ∧
    (Scheduler.generate_plan o).time_used =
      o.available_time_minutes -
        Scheduler.final_time_remaining
          (Scheduler.sort_tasks_by_priority o.get_all_tasks)
          o.available_time_minutes ∧
    (Scheduler.generate_plan o).time_used ≤ o.available_time_minutes := by
  have h1 : (Scheduler.generate_plan o).time_used =
      sumDur (Scheduler.generate_plan o).scheduled_tasks := rfl
  have h2 := final_rem_eq (Scheduler.sort_tasks_by_priority o.get_all_tasks)
    o.available_time_minutes
  have h3 := final_rem_nonneg (Scheduler.sort_tasks_by_priority o.get_all_tasks)
    o.available_time_minutes h
  have h4 : (Scheduler.generate_plan o).time_used =
      sumDur (Scheduler.fit_tasks_to_time
        (Scheduler.sort_tasks_by_priority o.get_all_tasks)
        o.available_time_minutes).1 := rfl
  exact ⟨h1, by omega, by omega⟩

/-- C2 witness: the theorem instantiated at the concrete scenario-1
owner with budget 40. -/
theorem C2_time_used_witness :
    (0 : Int) ≤ owner40.available_time_minutes ∧
    (Scheduler.generate_plan owner40).time_used ≤ owner40.available_time_minutes :=
  ⟨by decide, (C2_time_used owner40 (by decide)).2.2⟩

/-- C3: Partition. For every task list and budget, the scheduled list
followed by the skipped list is a permutation of the input: no task is
duplicated and none is lost. -/
theorem C3_partition (ts : List Task) (r : Int) :
    ((Scheduler.fit_tasks_to_time ts r).1 ++
      (Scheduler.fit_tasks_to_time ts r).2).Perm ts :=
  fit_perm ts r

/-- C4: Stable priority sort. The sort used by generate_plan yields a
list in descending order of priority rank; every equal-rank pair keeps
its original relative order (stability, phrased via sublists); and the
three equal-priority scenario-5 tasks in order [C, A, B] sort to
[C, A, B]. -/
theorem C4_stable_sort :
    (∀ ts : List Task, (Scheduler.sort_tasks_by_priority ts).Pairwise
        (fun a b => b.get_priority_value ≤ a.get_priority_value)) ∧
    (∀ (A B : Task) (ts : List Task),
      A.get_priority_value = B.get_priority_value →
      [A, B].Sublist ts →
      [A, B].Sublist (Scheduler.sort_tasks_by_priority ts)) ∧
    Scheduler.sort_tasks_by_priority [taskEqC, taskEqA, taskEqB] =
      [taskEqC, taskEqA, taskEqB] := by
  refine ⟨sort_pairwise, sort_stable, ?_⟩
  unfold Scheduler.sort_tasks_by_priority
  exact List.mergeSort_of_sorted (by decide)

/-- C4 witness: stability applied to the concrete equal-priority pair
A before B inside [C, A, B]. -/
theorem C4_stable_sort_witness :
    [taskEqA, taskEqB].Sublist
      (Scheduler.sort_tasks_by_priority [taskEqC, taskEqA, taskEqB]) :=
  C4_stable_sort.2.1 taskEqA taskEqB [taskEqC, taskEqA, taskEqB] (by decide)
    (List.Sublist.cons taskEqC (List.Sublist.refl [taskEqA, taskEqB]))

/-- C5: Pet.add_task rejects a task whose pet_id differs from the id of
the pet — it raises (an error result) and the task collection, and its
count, are unchanged — and a task whose pet_id matches is appended at
the end, preserving insertion order. -/
theorem C5_add_task (p : Pet) (t : Task) :
    (t.pet_id ≠ p.id →
      (∃ msg, p.add_task t = Except.error msg) ∧
      (p.add_task_result t).tasks = p.tasks ∧
      (p.add_task_result t).tasks.length = p.tasks.length) ∧
    (t.pet_id = p.id →
      p.add_task t = Except.ok { p with tasks := p.tasks ++ [t] }) := by
  constructor
  · intro h
    have he : p.add_task t = Except.error ("Task pet_id (" ++ toString t.pet_id ++
        ") does not match Pet id (" ++ toString p.id ++ ")") := by
      simp [Pet.add_task, h]
    exact ⟨⟨_, he⟩, by simp [Pet.add_task_result, he], by simp [Pet.add_task_result, he]⟩
  · intro h
    simp [Pet.add_task, h]

/-- C5 witness: the theorem applied to a concrete mismatching task
(pet_id 8 vs pet id 7) and a concrete matching one. -/
theorem C5_add_task_witness :
    (taskForeign.pet_id ≠ petSolo.id ∧
      (petSolo.add_task_result taskForeign).tasks = petSolo.tasks) ∧
    (taskOwn.pet_id = petSolo.id ∧
      petSolo.add_task taskOwn =
        Except.ok { petSolo with tasks := petSolo.tasks ++ [taskOwn] }) :=
  ⟨⟨by decide, ((C5_add_task petSolo taskForeign).1 (by decide)).2.1⟩,
   ⟨by decide, (C5_add_task petSolo taskOwn).2 (by decide)⟩⟩

/-- C6: The priority-to-rank mapping is total and pure: the rank of any
task is 3 when its priority string lowercases to "high", 2 for
"medium", 1 for "low", and 1 for every other string. -/
theorem C6_priority_total :
    ∀ t : Task, t.get_priority_value =
      (if strLower t.priority = "high" then 3
       else if strLower t.priority = "medium" then 2
       else if strLower t.priority = "low" then 1
       else 1) := by
  intro t
  unfold Task.get_priority_value PRIORITY_VALUES
  by_cases h1 : strLower t.priority = "high" <;>
    by_cases h2 : strLower t.priority = "medium" <;>
    by_cases h3 : strLower t.priority = "low" <;>
    simp [h1, h2, h3]

/-- C7 counterexample: with two pets both carrying id 1, remove_pet 1
removes both, not only the first match as the claim states — the
resulting pet list is empty rather than [petDup2]. -/
theorem C7_counterexample :
    (ownerDup.remove_pet 1).pets = [] ∧
    (ownerDup.remove_pet 1).pets ≠ [petDup2] := by
  decide

/-- C7 amended: remove_pet and remove_task remove every element whose id
matches (a filter); they are a no-op when no element has that id, and
when ids are pairwise distinct — the expected situation — removing every
match coincides with removing the first match. -/
theorem C7_remove_all (o : Owner) (pid : Int) (p : Pet) (tid : Int) :
    (o.remove_pet pid).pets = o.pets.filter (fun q => q.id != pid) ∧
    (p.remove_task tid).tasks = p.tasks.filter (fun u => u.id != tid) ∧
    ((∀ q ∈ o.pets, q.id ≠ pid) → (o.remove_pet pid).pets = o.pets) ∧
    ((∀ u ∈ p.tasks, u.id ≠ tid) → (p.remove_task tid).tasks = p.tasks) ∧
    (o.pets.Pairwise (fun a b => a.id ≠ b.id) →
      (o.remove_pet pid).pets = o.pets.eraseP (fun q => q.id == pid)) ∧
    (p.tasks.Pairwise (fun a b => a.id ≠ b.id) →
      (p.remove_task tid).tasks = p.tasks.eraseP (fun u => u.id == tid)) := by
  refine ⟨rfl, rfl, ?_, ?_, ?_, ?_⟩
  · intro h
    show o.pets.filter (fun q => q.id != pid) = o.pets
    apply List.filter_eq_self.mpr
    intro q hq
    simpa [bne_iff_ne] using h q hq
  · intro h
    show p.tasks.filter (fun u => u.id != tid) = p.tasks
    apply List.filter_eq_self.mpr
    intro u hu
    simpa [bne_iff_ne] using h u hu
  · intro h
    exact filter_ne_eraseP Pet.id pid o.pets h
  · intro h
    exact filter_ne_eraseP Task.id tid p.tasks h

/-- C7 witness: the amended theorem applied to concrete collections with
distinct ids and an absent id 99 (no-op), and with id 1 present (the
first — and only — match is removed). -/
theorem C7_remove_all_witness :
    ((owner40.remove_pet 99).pets = owner40.pets ∧
      (petMochi.remove_task 99).tasks = petMochi.tasks) ∧
    (owner40.remove_pet 1).pets = owner40.pets.eraseP (fun q => q.id == 1) :=
  ⟨⟨(C7_remove_all owner40 99 petMochi 99).2.2.1 (by decide),
    (C7_remove_all owner40 99 petMochi 99).2.2.2.1 (by decide)⟩,
   (C7_remove_all owner40 1 petMochi 1).2.2.2.2.1 (by decide)⟩

/-- C8: the Task record of the source has exactly the six fields id,
name, category, duration_minutes, priority and pet_id — each task is
fully determined by them, so the data model carries no completion flag,
contrary to the claim and to the test of the repository itself, which constructs
a Task with these six fields and then calls mark_complete() and reads
is_completed. -/
theorem C8_task_fields_complete :
    ∀ t : Task,
      t = { id := t.id, name := t.name, category := t.category,
            duration_minutes := t.duration_minutes, priority := t.priority,
            pet_id := t.pet_id } :=
  fun _ => rfl

/-- C9: Frame. generate_plan, state-threaded through its owner argument,
returns the owner exactly as it received it — available_time_minutes,
the pet list and every task are untouched — and produces the same plan
as the pure reading of the method. -/
theorem C9_no_mutation :
    ∀ o : Owner,
      (Scheduler.generate_planS o).2 = o ∧
      (Scheduler.generate_planS o).1 = Scheduler.generate_plan o :=
  fun _ => ⟨rfl, rfl⟩

/-- C10: generate_plan is total for any integer budget; when every task
lasts at least one minute and the budget is zero or negative, nothing is
scheduled, every task is skipped in sorted order, and time_used is 0. -/
theorem C10_nonpositive_budget (o : Owner)
    (hd : ∀ t ∈ o.get_all_tasks, 1 ≤ t.duration_minutes)
    (hr : o.available_time_minutes ≤ 0) :
    (Scheduler.generate_plan o).scheduled_tasks = [] ∧
    (Scheduler.generate_plan o).skipped_tasks =
      Scheduler.sort_tasks_by_priority o.get_all_tasks ∧
    (Scheduler.generate_plan o).time_used = 0 := by
  have hd2 : ∀ t ∈ Scheduler.sort_tasks_by_priority o.get_all_tasks,
      1 ≤ t.duration_minutes := by
    intro t ht
    unfold Scheduler.sort_tasks_by_priority at ht
    exact hd t (List.mem_mergeSort.mp ht)
  have hfit := fit_all_skipped (Scheduler.sort_tasks_by_priority o.get_all_tasks)
    o.available_time_minutes hd2 hr
  refine ⟨?_, ?_, ?_⟩
  · show (Scheduler.fit_tasks_to_time
        (Scheduler.sort_tasks_by_priority o.get_all_tasks)
        o.available_time_minutes).1 = []
    rw [hfit]
  · show (Scheduler.fit_tasks_to_time
        (Scheduler.sort_tasks_by_priority o.get_all_tasks)
        o.available_time_minutes).2 =
      Scheduler.sort_tasks_by_priority o.get_all_tasks
    rw [hfit]
  · show ((Scheduler.fit_tasks_to_time
        (Scheduler.sort_tasks_by_priority o.get_all_tasks)
        o.available_time_minutes).1).foldl
          (fun acc t => acc + t.duration_minutes) 0 = 0
    rw [hfit]
    rfl

/-- C10 witness: the theorem applied to a concrete owner with a negative
budget of -5 minutes and one 30-minute task. -/
theorem C10_nonpositive_budget_witness :
    (∀ t ∈ ownerNeg.get_all_tasks, 1 ≤ t.duration_minutes) ∧
    ownerNeg.available_time_minutes ≤ 0 ∧
    (Scheduler.generate_plan ownerNeg).scheduled_tasks = [] ∧
    (Scheduler.generate_plan ownerNeg).time_used = 0 :=
  ⟨by decide, by decide,
   (C10_nonpositive_budget ownerNeg (by decide) (by decide)).1,
   (C10_nonpositive_budget ownerNeg (by decide) (by decide)).2.2⟩

end PawPal
